import Mathlib

/-!
Shallow embedding of the dudu-app client (src/unnamed/part_001, the current
version of `App.tsx`) and proofs about its reconciliation, validation and
display logic.

Modelling conventions:
* JavaScript numbers appearing in record fields are modelled as `Int`
  (timestamps, ratings) or as `JsNum` (a rational or NaN) where `parseFloat`
  may produce NaN.
* Browser/external collaborators (`Date.now()`, `new Date().toLocaleDateString()`,
  `String.prototype.localeCompare` with the zh-TW collator) are injected as an
  explicit environment `JsEnv`; `new Date("YYYY-MM-DD").getTime()` is
  implemented exactly (ISO date-only strings parse as UTC midnight).
* Each event handler is a pure state transition returning the new component
  state, the ordered trace of observable effects (state-flag writes, remote
  store calls, alerts, console logging), and whether an exception escaped
  uncaught. The response of the remote store is an explicit `Bool` parameter
  (`true` = the awaited call resolved, `false` = it rejected).
-/

/-- The five values of the TS union `CategoryType`. -/
inductive CategoryType
  | canned | pouch | dry | litter | raw
deriving DecidableEq, Repr

/-- The literal string value of a `CategoryType`, as stored in Firestore. -/
def CategoryType.value : CategoryType → String
  | .canned => "canned"
  | .pouch => "pouch"
  | .dry => "dry"
  | .litter => "litter"
  | .raw => "raw"

/-- A JavaScript number that may be NaN (result of `parseFloat` on bad input). -/
inductive JsNum
  | nan
  | num (q : ℚ)
deriving DecidableEq, Repr

/-- `interface FoodRecord` from the source. -/
structure FoodRecord where
  id : String
  category : CategoryType
  brand : String
  flavor : String
  rating : Int
  notes : String
  date : String
  timestamp : Int
deriving DecidableEq, Repr

/-- `interface WeightRecord` from the source. -/
structure WeightRecord where
  id : String
  weight : JsNum
  date : String
  timestamp : JsNum
deriving DecidableEq, Repr

/-- `interface ShoppingItem` from the source. -/
structure ShoppingItem where
  id : String
  category : CategoryType
  name : String
  note : String
  isBought : Bool
  timestamp : Int
deriving DecidableEq, Repr

/-- The category filter state: a concrete `CategoryType` or the sentinel `all`. -/
inductive FilterCategory
  | all
  | only (c : CategoryType)
deriving DecidableEq, Repr

/-- The sort selector state with values `date`, `brand`, `rating`. -/
inductive SortBy
  | date | brand | rating
deriving DecidableEq, Repr

/-- `const DUDU_BIRTHDAY = "2025-04-01";` -/
def DUDU_BIRTHDAY : String := "2025-04-01"

/-- Days from the Unix epoch to the civil date y-m-d (proleptic Gregorian),
the standard days-from-civil computation used by JavaScript date parsing. -/
def civilDaysFromEpoch (y m d : Int) : Int :=
  let y1 : Int := if m ≤ 2 then y - 1 else y
  let era : Int := (if 0 ≤ y1 then y1 else y1 - 399) / 400
  let yoe : Int := y1 - era * 400
  let mp : Int := (m + 9) % 12
  let doy : Int := (153 * mp + 2) / 5 + d - 1
  let doe : Int := yoe * 365 + yoe / 4 - yoe / 100 + doy
  era * 146097 + doe - 719468

/-- Split a character list on the `-` separator. -/
def splitDash : List Char → List (List Char)
  | [] => [[]]
  | c :: cs =>
    let r := splitDash cs
    if c = '-' then [] :: r
    else
      match r with
      | [] => [[c]]
      | g :: gs => (c :: g) :: gs

/-- Read a non-empty all-digit character list as a number. -/
def digitsToNat? (cs : List Char) : Option Nat :=
  if cs ≠ [] ∧ cs.all (fun c => c.isDigit) then
    some (cs.foldl (fun a c => a * 10 + (c.toNat - 48)) 0)
  else none

/-- Parse an ISO `YYYY-MM-DD` string into its numeric components. -/
def parseISODate (s : String) : Option (Int × Int × Int) :=
  match splitDash s.data with
  | [ys, ms, ds] =>
    match digitsToNat? ys, digitsToNat? ms, digitsToNat? ds with
    | some y, some m, some d => some ((y : Int), (m : Int), (d : Int))
    | _, _, _ => none
  | _ => none

/-- `new Date(s).getTime()` for an ISO date-only string `s`: epoch millis of
UTC midnight of that date (JS parses date-only ISO strings as UTC). `none`
models NaN for strings outside the ISO date-only form. -/
def dateParseMs (s : String) : Option Int :=
  (parseISODate s).map (fun t => civilDaysFromEpoch t.1 t.2.1 t.2.2 * 86400000)

/-- `calculateAgeLabel` (src/unnamed/part_001 lines 541-552): absolute elapsed
millis between the date of the record and `DUDU_BIRTHDAY`, rounded up to whole days
(`Math.ceil`), rendered as `N`天 below 30 days, otherwise months = days div 30
with the mod-30 remainder shown only when it is at least 5. An unparseable
date would make every arithmetic step NaN in JS; that branch is collapsed to
a single out-of-scope marker string here. -/
def calculateAgeLabel (dateString : String) : String :=
  match dateParseMs DUDU_BIRTHDAY, dateParseMs dateString with
  | some birth, some target =>
    let diffTime : Nat := (target - birth).natAbs
    let diffDays : Nat := (diffTime + 86400000 - 1) / 86400000
    if diffDays < 30 then s!"{diffDays}天"
    else
      let months := diffDays / 30
      let days := diffDays % 30
      if days < 5 then s!"{months}個月"
      else s!"{months}個月{days}天"
  | _, _ => "NaN天"

/-- `parseFloat` of JS on sign/digits/dot/digits forms; anything else is NaN.
(Exponent and `Infinity` forms of the JS primitive fall outside the inputs
this development evaluates and are mapped to NaN here.) -/
def parseFloat (s : String) : JsNum :=
  let step : (ℚ × List Char) → Option (ℚ × List Char) :=
    fun t =>
      let ds1 := t.2.takeWhile (fun c => c.isDigit)
      let rest := t.2.drop ds1.length
      let ds2 :=
        match rest with
        | '.' :: u => u.takeWhile (fun c => c.isDigit)
        | _ => []
      if ds1 = [] ∧ ds2 = [] then none
      else
        some (t.1 * (((ds1.foldl (fun a c => a * 10 + (c.toNat - 48)) 0 : Nat) : ℚ) +
          ((ds2.foldl (fun a c => a * 10 + (c.toNat - 48)) 0 : Nat) : ℚ) / (10 : ℚ) ^ ds2.length),
          rest)
  let signed : ℚ × List Char :=
    match s.data with
    | '-' :: t => (-1, t)
    | '+' :: t => (1, t)
    | t => (1, t)
  match step signed with
  | none => JsNum.nan
  | some v => JsNum.num v.1

/-- External browser/runtime collaborators, injected explicitly: the wall
clock (`Date.now()`), the locale-formatted date string of today
(`new Date().toLocaleDateString()`), and the zh-TW collator backing
`localeCompare` with the zh-TW locale on brand strings. -/
structure JsEnv where
  nowMs : Int
  todayLocaleDate : String
  localeCompareZhTW : String → String → Int

/-- The component state of `App` (the `useState` hooks the claims touch). -/
structure AppState where
  foodRecords : List FoodRecord
  category : CategoryType
  brand : String
  flavor : String
  rating : Int
  notes : String
  filterCategory : FilterCategory
  sortBy : SortBy
  weightRecords : List WeightRecord
  weightInput : String
  measureDate : String
  shoppingList : List ShoppingItem
  shopName : String
  shopNote : String
  isSubmitting : Bool
  editingId : Option String
deriving DecidableEq, Repr

/-- A Firestore field value as the app writes them. -/
inductive FsValue
  | str (s : String)
  | int (n : Int)
  | num (x : JsNum)
  | bool (b : Bool)
deriving DecidableEq, Repr

/-- A remote-store mutation issued by the app. -/
inductive RemoteCall
  | insert (coll : String) (fields : List (String × FsValue))
  | update (coll : String) (docId : String) (fields : List (String × FsValue))
  | delete (coll : String) (docId : String)
deriving DecidableEq, Repr

/-- An observable effect of a handler, in program order. -/
inductive Event
  | setSubmitting (b : Bool)
  | remote (c : RemoteCall)
  | alert (msg : String)
  | consoleError
deriving DecidableEq, Repr

/-- Result of running one handler: the state after all React state setters
have taken effect, the ordered effect trace, and whether a rejected awaited
promise escaped with no surrounding `catch`. -/
structure HandlerResult where
  state : AppState
  events : List Event
  uncaught : Bool
deriving DecidableEq, Repr

/-- The food `onSnapshot` subscription callback (lines 584-588): it rebuilds
the array from the snapshot and calls `setFoodRecords` — nothing else. -/
def applyFoodSnapshot (data : List FoodRecord) (s : AppState) : AppState :=
  { s with foodRecords := data }

/-- `handleFoodSubmit` (lines 621-648). `ok` is the response of the remote store
to the one awaited call. In the update branch the closure variable
`editingId` is still non-null after `setEditingId(null)`, so
the guarded reset `if (!editingId) setCategory(..)` does not fire, so the
category is not reset there. -/
def handleFoodSubmit (env : JsEnv) (ok : Bool) (s : AppState) : HandlerResult :=
  if s.brand = "" ∨ s.flavor = "" ∨ s.rating = 0 then
    { state := s, events := [.alert "請填寫品牌、口味並給予評分喔！"], uncaught := false }
  else
    match s.editingId with
    | some eid =>
      let call : RemoteCall := .update "records" eid
        [("category", .str s.category.value), ("brand", .str s.brand),
         ("flavor", .str s.flavor), ("rating", .int s.rating), ("notes", .str s.notes)]
      if ok then
        { state := { s with editingId := none, brand := "", flavor := "",
                            rating := 0, notes := "", isSubmitting := false },
          events := [.setSubmitting true, .remote call, .alert "修改成功！",
                     .setSubmitting false],
          uncaught := false }
      else
        { state := { s with isSubmitting := false },
          events := [.setSubmitting true, .remote call, .consoleError,
                     .alert "上傳失敗", .setSubmitting false],
          uncaught := false }
    | none =>
      let call : RemoteCall := .insert "records"
        [("category", .str s.category.value), ("brand", .str s.brand),
         ("flavor", .str s.flavor), ("rating", .int s.rating), ("notes", .str s.notes),
         ("date", .str env.todayLocaleDate), ("timestamp", .int env.nowMs)]
      if ok then
        { state := { s with brand := "", flavor := "", rating := 0, notes := "",
                            category := .canned, isSubmitting := false },
          events := [.setSubmitting true, .remote call, .setSubmitting false],
          uncaught := false }
      else
        { state := { s with isSubmitting := false },
          events := [.setSubmitting true, .remote call, .consoleError,
                     .alert "上傳失敗", .setSubmitting false],
          uncaught := false }

/-- `new Date(measureDate).getTime()` as the weight submit computes it. -/
def jsDateGetTime (s : String) : JsNum :=
  match dateParseMs s with
  | some n => .num (n : ℚ)
  | none => .nan

/-- `handleWeightSubmit` (lines 650-670). Validation checks only that the
two input strings are non-empty (JS truthiness on strings). -/
def handleWeightSubmit (ok : Bool) (s : AppState) : HandlerResult :=
  if s.weightInput = "" ∨ s.measureDate = "" then
    { state := s, events := [.alert "請輸入體重和日期"], uncaught := false }
  else
    let call : RemoteCall := .insert "weight_records"
      [("weight", .num (parseFloat s.weightInput)),
       ("date", .str s.measureDate),
       ("timestamp", .num (jsDateGetTime s.measureDate))]
    if ok then
      { state := { s with weightInput := "", isSubmitting := false },
        events := [.setSubmitting true, .remote call, .setSubmitting false],
        uncaught := false }
    else
      { state := { s with isSubmitting := false },
        events := [.setSubmitting true, .remote call, .consoleError,
                   .alert "體重上傳失敗", .setSubmitting false],
        uncaught := false }

/-- `handleShoppingSubmit` (lines 672-695). The stored `category` is the
shared state also bound to the food form. -/
def handleShoppingSubmit (env : JsEnv) (ok : Bool) (s : AppState) : HandlerResult :=
  if s.shopName = "" then
    { state := s, events := [.alert "請輸入想買的東西名稱"], uncaught := false }
  else
    let call : RemoteCall := .insert "shopping_list"
      [("category", .str s.category.value), ("name", .str s.shopName),
       ("note", .str s.shopNote), ("isBought", .bool false),
       ("timestamp", .int env.nowMs)]
    if ok then
      { state := { s with shopName := "", shopNote := "", isSubmitting := false },
        events := [.setSubmitting true, .remote call, .setSubmitting false],
        uncaught := false }
    else
      { state := { s with isSubmitting := false },
        events := [.setSubmitting true, .remote call, .consoleError,
                   .alert "新增失敗", .setSubmitting false],
        uncaught := false }

/-- `handleEdit` (lines 699-707): stage the mutable fields of the record and enter
edit mode. The `window.scrollTo` call has no modelled effect. -/
def handleEdit (rec : FoodRecord) (s : AppState) : AppState :=
  { s with editingId := some rec.id, category := rec.category, brand := rec.brand,
           flavor := rec.flavor, rating := rec.rating, notes := rec.notes }

/-- `handleCancelEdit` (lines 709-712). -/
def handleCancelEdit (s : AppState) : AppState :=
  { s with editingId := none, brand := "", flavor := "", rating := 0, notes := "" }

/-- `handleDelete` (lines 714-719). `confirm` is the user answer to
`window.confirm`. The awaited `deleteDoc` has no surrounding try/catch, so a
rejection escapes uncaught and the `editingId` check is never reached. -/
def handleDelete (confirm : Bool) (ok : Bool) (id col : String) (s : AppState) :
    HandlerResult :=
  if confirm then
    if ok then
      { state := if s.editingId = some id then handleCancelEdit s else s,
        events := [.remote (.delete col id)], uncaught := false }
    else
      { state := s, events := [.remote (.delete col id)], uncaught := true }
  else
    { state := s, events := [], uncaught := false }

/-- `toggleBought` (lines 722-730): update flipping only `isBought`; failures
are caught and logged but produce no alert. -/
def toggleBought (ok : Bool) (item : ShoppingItem) (s : AppState) : HandlerResult :=
  let call : RemoteCall := .update "shopping_list" item.id
    [("isBought", .bool (!item.isBought))]
  if ok then
    { state := s, events := [.remote call], uncaught := false }
  else
    { state := s, events := [.remote call, .consoleError], uncaught := false }

/-- `setCategory` as wired to both category `<select>`s (lines 806 and 889). -/
def setCategoryAction (c : CategoryType) (s : AppState) : AppState :=
  { s with category := c }

/-- The `value` bound to the category select of the food form (line 806). -/
def foodFormCategoryValue (s : AppState) : CategoryType := s.category

/-- The `value` bound to the category select of the shopping form (line 889). -/
def shoppingFormCategoryValue (s : AppState) : CategoryType := s.category

/-- `disabled={isSubmitting}` on the food submit button (line 832). -/
def foodSubmitDisabled (s : AppState) : Bool := s.isSubmitting

/-- `disabled={isSubmitting}` on the shopping submit button (line 914). -/
def shoppingSubmitDisabled (s : AppState) : Bool := s.isSubmitting

/-- `disabled={isSubmitting}` on the weight submit button (line 1008). -/
def weightSubmitDisabled (s : AppState) : Bool := s.isSubmitting

/-- The sort comparator of `displayedRecords` (lines 742-747); the trailing
`return 0` is unreachable because `sortBy` always holds one of the three
keys. -/
def foodCompare (env : JsEnv) (k : SortBy) (a b : FoodRecord) : Int :=
  match k with
  | .date => b.timestamp - a.timestamp
  | .rating => b.rating - a.rating
  | .brand => env.localeCompareZhTW a.brand b.brand

/-- Stable insertion into a comparator-sorted list: the incoming element
(earlier in the original list) lands before any element it compares equal
to. -/
def jsInsert (cmp : α → α → Int) (x : α) : List α → List α
  | [] => [x]
  | y :: ys => if cmp x y ≤ 0 then x :: y :: ys else y :: jsInsert cmp x ys

/-- `Array.prototype.sort(cmp)` — since ES2019 a stable comparator sort; for
a comparator that is a total preorder the stable result is unique, so this
stable insertion sort is an exact model. -/
def jsSort (cmp : α → α → Int) : List α → List α
  | [] => []
  | x :: xs => jsInsert cmp x (jsSort cmp xs)

/-- The category-filter predicate of `displayedRecords` (line 741). -/
def matchesFilter (f : FilterCategory) (rec : FoodRecord) : Bool :=
  match f with
  | .all => true
  | .only c => rec.category = c

/-- `displayedRecords` (lines 740-747): filter the snapshot by category, then
sort by the selected key. `.filter` allocates a fresh array, so the in-place
`.sort` never touches the snapshot owned by the synchronizer. -/
def displayedRecords (env : JsEnv) (s : AppState) : List FoodRecord :=
  jsSort (foodCompare env s.sortBy) (s.foodRecords.filter (matchesFilter s.filterCategory))

/-- The remote mutations a handler issued, in order. -/
def remoteCalls (r : HandlerResult) : List RemoteCall :=
  r.events.filterMap fun e =>
    match e with
    | .remote c => some c
    | _ => none

/-- The alert messages a handler raised, in order. -/
def alerts (r : HandlerResult) : List String :=
  r.events.filterMap fun e =>
    match e with
    | .alert m => some m
    | _ => none

/-- The field names carried by a remote mutation. -/
def callFields : RemoteCall → List String
  | .insert _ f => f.map Prod.fst
  | .update _ _ f => f.map Prod.fst
  | .delete _ _ => []

/-- The in-flight-flag protocol of a submit handler: the flag is raised first,
cleared exactly once as the final (guaranteed-cleanup) effect, and the handler
ends with the flag down. -/
def flagProtocol (r : HandlerResult) : Prop :=
  r.events.head? = some (.setSubmitting true)
  ∧ r.events.getLast? = some (.setSubmitting false)
  ∧ r.events.count (Event.setSubmitting false) = 1
  ∧ r.state.isSubmitting = false

/-- A concrete environment standing in for the external collaborators in
witnesses and counterexamples. -/
def env0 : JsEnv :=
  { nowMs := 1746057600000, todayLocaleDate := "2025/5/1",
    localeCompareZhTW := fun _ _ => 0 }

/-- A concrete freshly-mounted component state. -/
def st0 : AppState :=
  { foodRecords := [], category := .canned, brand := "", flavor := "",
    rating := 0, notes := "", filterCategory := .all, sortBy := .date,
    weightRecords := [], weightInput := "", measureDate := "",
    shoppingList := [], shopName := "", shopNote := "",
    isSubmitting := false, editingId := none }

/-- A concrete food record with identity `a`. -/
def recA : FoodRecord :=
  { id := "a", category := .dry, brand := "B", flavor := "F", rating := 4,
    notes := "N", date := "2025/4/20", timestamp := 100 }

/-- A state that is in Editing(`a`) with the fields of `recA` staged. -/
def c1State : AppState :=
  handleEdit recA { st0 with foodRecords := [recA] }

/-- A weight-form state whose weight input is non-empty but is not a number. -/
def c3State : AppState :=
  { st0 with weightInput := "abc", measureDate := "2025-01-01" }

/-- A state in which every form of the app passes local validation. -/
def c4State : AppState :=
  { st0 with brand := "B", flavor := "F", rating := 3, weightInput := "1.2",
             measureDate := "2025-01-02", shopName := "S" }

/-- The food-record input of the scenario in the spec, staged while Idle. -/
def c5State : AppState :=
  { st0 with category := .dry, brand := "Orijen 渴望", flavor := "雞肉",
             rating := 5, notes := "" }

/-- A concrete shopping item. -/
def item0 : ShoppingItem :=
  { id := "s1", category := .litter, name := "砂", note := "", isBought := false,
    timestamp := 7 }

/-- Two food records sharing one timestamp, to exercise tie stability. -/
def recT1 : FoodRecord :=
  { id := "t1", category := .canned, brand := "X", flavor := "x", rating := 2,
    notes := "", date := "d", timestamp := 50 }

/-- Second record with the same timestamp as `recT1`. -/
def recT2 : FoodRecord :=
  { id := "t2", category := .canned, brand := "Y", flavor := "y", rating := 3,
    notes := "", date := "d", timestamp := 50 }

/-- A snapshot state for the display-projection claim. -/
def c8State : AppState :=
  { st0 with foodRecords := [recT1, recA, recT2], filterCategory := .all,
             sortBy := .date }

theorem jsInsert_perm (cmp : α → α → Int) (x : α) (l : List α) :
    (jsInsert cmp x l).Perm (x :: l) := by
  induction l with
  | nil => simp [jsInsert]
  | cons y ys ih =>
    simp only [jsInsert]
    split
    · exact List.Perm.refl _
    · exact (ih.cons y).trans (List.Perm.swap x y ys)

theorem jsSort_perm (cmp : α → α → Int) (l : List α) : (jsSort cmp l).Perm l := by
  induction l with
  | nil => simp [jsSort]
  | cons x xs ih => exact (jsInsert_perm cmp x (jsSort cmp xs)).trans (ih.cons x)

theorem filter_jsInsert_pos (cmp : α → α → Int) (p : α → Bool) (x : α) (l : List α)
    (hx : p x = true) (h : ∀ y, p y = true → cmp x y = 0) :
    (jsInsert cmp x l).filter p = x :: l.filter p := by
  induction l with
  | nil => simp [jsInsert, hx]
  | cons y ys ih =>
    simp only [jsInsert]
    by_cases hc : cmp x y ≤ 0
    · rw [if_pos hc]
      simp [List.filter_cons, hx]
    · have hpy : p y = false := by
        cases hy : p y with
        | false => rfl
        | true => exact absurd (h y hy) (by omega)
      rw [if_neg hc]
      simp [List.filter_cons, hpy, ih]

theorem filter_jsInsert_neg (cmp : α → α → Int) (p : α → Bool) (x : α) (l : List α)
    (hx : p x = false) :
    (jsInsert cmp x l).filter p = l.filter p := by
  induction l with
  | nil => simp [jsInsert, hx]
  | cons y ys ih =>
    simp only [jsInsert]
    by_cases hc : cmp x y ≤ 0
    · rw [if_pos hc]
      simp [List.filter_cons, hx]
    · rw [if_neg hc]
      simp [List.filter_cons, ih]

theorem filter_jsSort (cmp : α → α → Int) (p : α → Bool) (l : List α)
    (hp : ∀ a b, p a = true → p b = true → cmp a b = 0) :
    (jsSort cmp l).filter p = l.filter p := by
  induction l with
  | nil => rfl
  | cons x xs ih =>
    simp only [jsSort]
    cases hx : p x with
    | true =>
      rw [filter_jsInsert_pos cmp p x _ hx (fun y hy => hp x y hx hy), ih]
      simp [List.filter_cons, hx]
    | false =>
      rw [filter_jsInsert_neg cmp p x _ hx, ih]
      simp [List.filter_cons, hx]

/-- Claim C1, counterexample: in state `c1State` the controller is in
Editing(`a`); the next synchronized snapshot is empty, so it no longer
contains a record with identity `a`; yet applying that snapshot leaves the
controller in Editing(`a`) with every staged field intact — it does not
return to Idle and nothing is cleared. -/
theorem C1_counterexample :
    c1State.editingId = some "a"
    ∧ (applyFoodSnapshot [] c1State).editingId = some "a"
    ∧ (applyFoodSnapshot [] c1State).brand = "B"
    ∧ (applyFoodSnapshot [] c1State).flavor = "F"
    ∧ (applyFoodSnapshot [] c1State).rating = 4
    ∧ ¬ (applyFoodSnapshot [] c1State).editingId = none := by decide

/-- Claim C1, amended: applying a synchronized food snapshot never changes
the edit session or the staged form fields, whatever the snapshot contains;
the session is torn down only by the local delete path — when `handleDelete`
runs with confirmation and success while the controller is in Editing(id),
the controller returns to Idle with all staged fields cleared. -/
theorem C1_amended (data : List FoodRecord) (s : AppState) (id col : String) :
    ((applyFoodSnapshot data s).editingId = s.editingId
      ∧ (applyFoodSnapshot data s).category = s.category
      ∧ (applyFoodSnapshot data s).brand = s.brand
      ∧ (applyFoodSnapshot data s).flavor = s.flavor
      ∧ (applyFoodSnapshot data s).rating = s.rating
      ∧ (applyFoodSnapshot data s).notes = s.notes)
    ∧ (s.editingId = some id →
        (handleDelete true true id col s).state.editingId = none
        ∧ (handleDelete true true id col s).state.brand = ""
        ∧ (handleDelete true true id col s).state.flavor = ""
        ∧ (handleDelete true true id col s).state.rating = 0
        ∧ (handleDelete true true id col s).state.notes = "") := by
  refine ⟨⟨rfl, rfl, rfl, rfl, rfl, rfl⟩, fun h => ?_⟩
  simp [handleDelete, h, handleCancelEdit]

/-- Witness for `C1_amended` at the concrete editing state `c1State`. -/
theorem C1_amended_witness :
    c1State.editingId = some "a"
    ∧ (applyFoodSnapshot [] c1State).editingId = c1State.editingId
    ∧ (handleDelete true true "a" "records" c1State).state.editingId = none :=
  ⟨by decide, (C1_amended [] c1State "a" "records").1.1,
    ((C1_amended [] c1State "a" "records").2 (by decide)).1⟩

/-- Claim C2, counterexample: `2025-05-04` is exactly 33 days after the birth
date `2025-04-01`, and the formatter renders it as `1個月`, not `1個月3天`:
the remainder 3 is below the suppression threshold 5. -/
theorem C2_counterexample :
    (dateParseMs "2025-05-04").map (fun t => t - 1743465600000) = some (33 * 86400000)
    ∧ calculateAgeLabel "2025-05-04" = "1個月"
    ∧ calculateAgeLabel "2025-05-04" ≠ "1個月3天" := by decide

/-- Claim C2, amended: the boundary values of the age formatter are
`0天` at the birth date, `1個月` at exactly 30 elapsed days, `1個月` at 33
days (remainder 3 suppressed since 3 < 5), `1個月` at 34 days (remainder 4
suppressed), and `1個月5天` at 35 days, the first remainder rendered. -/
theorem C2_amended :
    calculateAgeLabel DUDU_BIRTHDAY = "0天"
    ∧ calculateAgeLabel "2025-05-01" = "1個月"
    ∧ calculateAgeLabel "2025-05-04" = "1個月"
    ∧ calculateAgeLabel "2025-05-05" = "1個月"
    ∧ calculateAgeLabel "2025-05-06" = "1個月5天" := by decide

/-- Claim C3, counterexample: the weight input `abc` is not parseable as a
positive number (`parseFloat` yields NaN), yet with state `c3State` the
submit passes local validation, raises no validation message, and issues a
remote insert — the claimed parseable-positive check does not exist. -/
theorem C3_counterexample :
    parseFloat "abc" = JsNum.nan
    ∧ alerts (handleWeightSubmit true c3State) = []
    ∧ (remoteCalls (handleWeightSubmit true c3State)).length = 1 := by decide

/-- Claim C3, amended: the weight-record create validates its input locally
only for non-emptiness — the weight string and the date string must be
non-empty; on an empty field it fails fast with a user-facing validation
message and performs no remote call, and whenever both strings are non-empty
(parseable as a positive number or not) it issues exactly one remote insert
carrying `parseFloat` of the weight input. -/
theorem C3_amended (ok : Bool) (s : AppState) :
    ((s.weightInput = "" ∨ s.measureDate = "") →
      (handleWeightSubmit ok s).events = [.alert "請輸入體重和日期"]
      ∧ remoteCalls (handleWeightSubmit ok s) = []
      ∧ (handleWeightSubmit ok s).state = s)
    ∧ (s.weightInput ≠ "" → s.measureDate ≠ "" →
      remoteCalls (handleWeightSubmit ok s) =
        [RemoteCall.insert "weight_records"
          [("weight", .num (parseFloat s.weightInput)),
           ("date", .str s.measureDate),
           ("timestamp", .num (jsDateGetTime s.measureDate))]]) := by
  constructor
  · intro h
    simp [handleWeightSubmit, h, remoteCalls]
  · intro h1 h2
    cases ok <;> simp [handleWeightSubmit, h1, h2, remoteCalls]

/-- Witness for `C3_amended`: the empty branch at `st0` and the non-empty
branch at `c3State`. -/
theorem C3_amended_witness :
    (handleWeightSubmit true st0).events = [.alert "請輸入體重和日期"]
    ∧ remoteCalls (handleWeightSubmit true c3State) =
        [RemoteCall.insert "weight_records"
          [("weight", .num (parseFloat "abc")),
           ("date", .str "2025-01-01"),
           ("timestamp", .num (jsDateGetTime "2025-01-01"))]] :=
  ⟨((C3_amended true st0).1 (by decide)).1,
    (C3_amended true c3State).2 (by decide) (by decide)⟩

/-- Claim C4, counterexample: a failed delete is not caught — `handleDelete`
wraps `deleteDoc` in no try/catch, so with a rejecting store the rejection
escapes uncaught, no notification is shown, and nothing is logged. -/
theorem C4_counterexample :
    (handleDelete true false "a" "records" st0).uncaught = true
    ∧ alerts (handleDelete true false "a" "records" st0) = []
    ∧ (handleDelete true false "a" "records" st0).events.count Event.consoleError = 0 := by
  decide

/-- Claim C4, amended: remote write failures of the three submit paths
(food create/update, weight create, shopping create) are caught around the
mutation and surfaced as one synchronous user-visible notification with the
underlying error logged; no retry is issued (the failing call stays the only
remote call) and no local state is rolled back (only the in-flight flag is
cleared). A failed `toggleBought` is caught and logged but shows no
notification, and a failed delete is not caught at all: the rejection
propagates with no notification and no log. -/
theorem C4_amended (env : JsEnv) (s : AppState) (item : ShoppingItem)
    (id col : String) :
    (s.brand ≠ "" → s.flavor ≠ "" → s.rating ≠ 0 →
      (handleFoodSubmit env false s).uncaught = false
      ∧ (handleFoodSubmit env false s).state = { s with isSubmitting := false }
      ∧ (remoteCalls (handleFoodSubmit env false s)).length = 1
      ∧ (handleFoodSubmit env false s).events.count Event.consoleError = 1
      ∧ alerts (handleFoodSubmit env false s) = ["上傳失敗"])
    ∧ (s.weightInput ≠ "" → s.measureDate ≠ "" →
      (handleWeightSubmit false s).uncaught = false
      ∧ (handleWeightSubmit false s).state = { s with isSubmitting := false }
      ∧ (remoteCalls (handleWeightSubmit false s)).length = 1
      ∧ (handleWeightSubmit false s).events.count Event.consoleError = 1
      ∧ alerts (handleWeightSubmit false s) = ["體重上傳失敗"])
    ∧ (s.shopName ≠ "" →
      (handleShoppingSubmit env false s).uncaught = false
      ∧ (handleShoppingSubmit env false s).state = { s with isSubmitting := false }
      ∧ (remoteCalls (handleShoppingSubmit env false s)).length = 1
      ∧ (handleShoppingSubmit env false s).events.count Event.consoleError = 1
      ∧ alerts (handleShoppingSubmit env false s) = ["新增失敗"])
    ∧ ((toggleBought false item s).uncaught = false
      ∧ (toggleBought false item s).state = s
      ∧ (toggleBought false item s).events.count Event.consoleError = 1
      ∧ alerts (toggleBought false item s) = [])
    ∧ ((handleDelete true false id col s).uncaught = true
      ∧ alerts (handleDelete true false id col s) = []
      ∧ (handleDelete true false id col s).events.count Event.consoleError = 0) := by
  refine ⟨fun h1 h2 h3 => ?_, fun h1 h2 => ?_, fun h1 => ?_, ?_, ?_⟩
  · cases he : s.editingId <;>
      simp [handleFoodSubmit, h1, h2, h3, he, remoteCalls, alerts]
  · simp [handleWeightSubmit, h1, h2, remoteCalls, alerts]
  · simp [handleShoppingSubmit, h1, remoteCalls, alerts]
  · simp [toggleBought, remoteCalls, alerts]
  · simp [handleDelete, remoteCalls, alerts]

/-- Witness for `C4_amended` at the fully-valid state `c4State`. -/
theorem C4_amended_witness :
    alerts (handleFoodSubmit env0 false c4State) = ["上傳失敗"]
    ∧ alerts (handleWeightSubmit false c4State) = ["體重上傳失敗"]
    ∧ alerts (handleShoppingSubmit env0 false c4State) = ["新增失敗"]
    ∧ (handleDelete true false "a" "records" c4State).uncaught = true := by
  obtain ⟨hf, hw, hs, ht, hd⟩ := C4_amended env0 c4State item0 "a" "records"
  exact ⟨(hf (by decide) (by decide) (by decide)).2.2.2.2,
    (hw (by decide) (by decide)).2.2.2.2, (hs (by decide)).2.2.2.2, hd.1⟩

/-- Claim C5: submitting a valid food record (non-empty brand, non-empty
flavor, rating in 1..5) while the session is Idle issues exactly one remote
insert carrying the provided fields plus the generated date and timestamp;
afterward the in-flight flag is false and the session is still Idle, and on
the successful outcome the category is reset to the default `canned`. -/
theorem C5_valid_food_create (env : JsEnv) (ok : Bool) (s : AppState)
    (hb : s.brand ≠ "") (hf : s.flavor ≠ "") (hr1 : 1 ≤ s.rating)
    (hr5 : s.rating ≤ 5) (hi : s.editingId = none) :
    remoteCalls (handleFoodSubmit env ok s) =
      [RemoteCall.insert "records"
        [("category", .str s.category.value), ("brand", .str s.brand),
         ("flavor", .str s.flavor), ("rating", .int s.rating),
         ("notes", .str s.notes), ("date", .str env.todayLocaleDate),
         ("timestamp", .int env.nowMs)]]
    ∧ (handleFoodSubmit env ok s).state.isSubmitting = false
    ∧ (handleFoodSubmit env ok s).state.editingId = none
    ∧ (ok = true → (handleFoodSubmit env ok s).state.category = .canned) := by
  have hr0 : ¬ s.rating = 0 := by omega
  cases ok <;> simp [handleFoodSubmit, hb, hf, hr0, hi, remoteCalls]

/-- Witness for `C5_valid_food_create` at the scenario input of the spec. -/
theorem C5_valid_food_create_witness :
    remoteCalls (handleFoodSubmit env0 true c5State) =
      [RemoteCall.insert "records"
        [("category", .str "dry"), ("brand", .str "Orijen 渴望"),
         ("flavor", .str "雞肉"), ("rating", .int 5), ("notes", .str ""),
         ("date", .str "2025/5/1"), ("timestamp", .int 1746057600000)]]
    ∧ (handleFoodSubmit env0 true c5State).state.isSubmitting = false
    ∧ (handleFoodSubmit env0 true c5State).state.editingId = none
    ∧ (handleFoodSubmit env0 true c5State).state.category = CategoryType.canned := by
  obtain ⟨h1, h2, h3, h4⟩ := C5_valid_food_create env0 true c5State
    (by decide) (by decide) (by decide) (by decide) (by decide)
  exact ⟨h1, h2, h3, h4 rfl⟩

/-- Claim C6: a food submission with rating 0 or an empty brand or an empty
flavor stops at local validation — the only effect is the user-facing
validation message; no remote call is issued and no state changes. -/
theorem C6_invalid_food_create (env : JsEnv) (ok : Bool) (s : AppState)
    (h : s.rating = 0 ∨ s.brand = "" ∨ s.flavor = "") :
    remoteCalls (handleFoodSubmit env ok s) = []
    ∧ (handleFoodSubmit env ok s).events = [.alert "請填寫品牌、口味並給予評分喔！"]
    ∧ (handleFoodSubmit env ok s).state = s := by
  have hv : s.brand = "" ∨ s.flavor = "" ∨ s.rating = 0 := by tauto
  simp [handleFoodSubmit, if_pos hv, remoteCalls]

/-- Witness for `C6_invalid_food_create` at rating 0. -/
theorem C6_invalid_food_create_witness :
    remoteCalls (handleFoodSubmit env0 true st0) = []
    ∧ (handleFoodSubmit env0 true st0).events = [.alert "請填寫品牌、口味並給予評分喔！"] :=
  ⟨(C6_invalid_food_create env0 true st0 (Or.inl (by decide))).1,
    (C6_invalid_food_create env0 true st0 (Or.inl (by decide))).2.1⟩

/-- Claim C7: the food-record update writes exactly the five mutable fields
category, brand, flavor, rating, notes — never the creation-time fields date
and timestamp — and `toggleBought` issues an update carrying exactly the
flipped `isBought` field of the shopping item. -/
theorem C7_partial_updates (env : JsEnv) (ok : Bool) (s : AppState)
    (eid : String) (item : ShoppingItem) (he : s.editingId = some eid)
    (hb : s.brand ≠ "") (hf : s.flavor ≠ "") (hr : s.rating ≠ 0) :
    remoteCalls (handleFoodSubmit env ok s) =
      [RemoteCall.update "records" eid
        [("category", .str s.category.value), ("brand", .str s.brand),
         ("flavor", .str s.flavor), ("rating", .int s.rating),
         ("notes", .str s.notes)]]
    ∧ (remoteCalls (handleFoodSubmit env ok s)).map callFields =
        [["category", "brand", "flavor", "rating", "notes"]]
    ∧ remoteCalls (toggleBought ok item s) =
        [RemoteCall.update "shopping_list" item.id
          [("isBought", .bool (!item.isBought))]] := by
  cases ok <;>
    simp [handleFoodSubmit, toggleBought, he, hb, hf, hr, remoteCalls, callFields]

/-- Witness for `C7_partial_updates` in a concrete editing state. -/
theorem C7_partial_updates_witness :
    remoteCalls (handleFoodSubmit env0 true c1State) =
      [RemoteCall.update "records" "a"
        [("category", .str "dry"), ("brand", .str "B"), ("flavor", .str "F"),
         ("rating", .int 4), ("notes", .str "N")]]
    ∧ remoteCalls (toggleBought true item0 c1State) =
        [RemoteCall.update "shopping_list" "s1" [("isBought", .bool true)]] :=
  ⟨(C7_partial_updates env0 true c1State "a" item0
      (by decide) (by decide) (by decide) (by decide)).1,
    (C7_partial_updates env0 true c1State "a" item0
      (by decide) (by decide) (by decide) (by decide)).2.2⟩

/-- Claim C8: the display projection is pure and deterministic — two states
with the same snapshot, filter and sort key project to the identical ordered
sequence; the projection is a permutation of the category-filtered snapshot
(no record is invented, dropped or altered, and the input snapshot itself is
never mutated in the embedding); and it is stable: any class of records that
compare equal under the selected key keeps exactly the order in which the
synchronizer delivered them. -/
theorem C8_projection_pure_stable (env : JsEnv) (s s2 : AppState)
    (p : FoodRecord → Bool)
    (hrec : s2.foodRecords = s.foodRecords)
    (hfil : s2.filterCategory = s.filterCategory)
    (hsort : s2.sortBy = s.sortBy)
    (hp : ∀ a b, p a = true → p b = true → foodCompare env s.sortBy a b = 0) :
    displayedRecords env s2 = displayedRecords env s
    ∧ (displayedRecords env s).Perm
        (s.foodRecords.filter (matchesFilter s.filterCategory))
    ∧ (displayedRecords env s).filter p =
        (s.foodRecords.filter (matchesFilter s.filterCategory)).filter p := by
  refine ⟨?_, ?_, ?_⟩
  · simp only [displayedRecords, hrec, hfil, hsort]
  · exact jsSort_perm _ _
  · exact filter_jsSort _ p _ hp

/-- Witness for `C8_projection_pure_stable`: the two records of `c8State`
with the tied timestamp 50 appear in the projection in delivered order. -/
theorem C8_projection_pure_stable_witness :
    (displayedRecords env0 c8State).Perm
      (c8State.foodRecords.filter (matchesFilter c8State.filterCategory))
    ∧ (displayedRecords env0 c8State).filter (fun r => r.timestamp == 50) =
        (c8State.foodRecords.filter (matchesFilter c8State.filterCategory)).filter
          (fun r => r.timestamp == 50) := by
  have h := C8_projection_pure_stable env0 c8State c8State
    (fun r => r.timestamp == 50) rfl rfl rfl
    (by
      intro a b ha hb
      have ha2 : a.timestamp = 50 := by simpa using ha
      have hb2 : b.timestamp = 50 := by simpa using hb
      show foodCompare env0 c8State.sortBy a b = 0
      simp [foodCompare, c8State, st0, ha2, hb2])
  exact ⟨h.2.1, h.2.2⟩

/-- Claim C9: the three forms share the single submission-in-flight flag —
each submit control is disabled exactly when that one flag is set — and each
of the three create/update handlers, once past validation, raises the flag
first and clears it exactly once as its final guaranteed-cleanup effect,
ending with the flag down whatever the remote outcome. -/
theorem C9_shared_inflight_flag (env : JsEnv) (ok : Bool) (s : AppState) :
    (foodSubmitDisabled s = s.isSubmitting
      ∧ shoppingSubmitDisabled s = s.isSubmitting
      ∧ weightSubmitDisabled s = s.isSubmitting)
    ∧ (¬ (s.brand = "" ∨ s.flavor = "" ∨ s.rating = 0) →
        flagProtocol (handleFoodSubmit env ok s))
    ∧ (¬ (s.weightInput = "" ∨ s.measureDate = "") →
        flagProtocol (handleWeightSubmit ok s))
    ∧ (s.shopName ≠ "" → flagProtocol (handleShoppingSubmit env ok s)) := by
  refine ⟨⟨rfl, rfl, rfl⟩, fun h => ?_, fun h => ?_, fun h => ?_⟩
  · push_neg at h
    obtain ⟨h1, h2, h3⟩ := h
    cases he : s.editingId <;> cases ok <;>
      simp [handleFoodSubmit, flagProtocol, h1, h2, h3, he,
        List.count_cons, List.count_nil]
  · push_neg at h
    obtain ⟨h1, h2⟩ := h
    cases ok <;>
      simp [handleWeightSubmit, flagProtocol, h1, h2,
        List.count_cons, List.count_nil]
  · cases ok <;>
      simp [handleShoppingSubmit, flagProtocol, h,
        List.count_cons, List.count_nil]

/-- Witness for `C9_shared_inflight_flag` at the fully-valid state
`c4State`. -/
theorem C9_shared_inflight_flag_witness :
    flagProtocol (handleFoodSubmit env0 true c4State)
    ∧ flagProtocol (handleWeightSubmit true c4State)
    ∧ flagProtocol (handleShoppingSubmit env0 true c4State) := by
  obtain ⟨-, hf, hw, hs⟩ := C9_shared_inflight_flag env0 true c4State
  exact ⟨hf (by decide), hw (by decide), hs (by decide)⟩

/-- Claim C10: the shopping form and the food form bind the one shared
`category` state: both selects render the same value, a shopping create
stores the current shared category, and both selecting a category in the
food form and starting an edit of a food record (which stages that record
category) determine the category carried by the next shopping-item insert. -/
theorem C10_shared_category_state (env : JsEnv) (ok : Bool) (s : AppState)
    (rec : FoodRecord) (c : CategoryType) (hn : s.shopName ≠ "") :
    shoppingFormCategoryValue s = foodFormCategoryValue s
    ∧ remoteCalls (handleShoppingSubmit env ok (handleEdit rec s)) =
        [RemoteCall.insert "shopping_list"
          [("category", .str rec.category.value), ("name", .str s.shopName),
           ("note", .str s.shopNote), ("isBought", .bool false),
           ("timestamp", .int env.nowMs)]]
    ∧ remoteCalls (handleShoppingSubmit env ok (setCategoryAction c s)) =
        [RemoteCall.insert "shopping_list"
          [("category", .str c.value), ("name", .str s.shopName),
           ("note", .str s.shopNote), ("isBought", .bool false),
           ("timestamp", .int env.nowMs)]] := by
  refine ⟨rfl, ?_, ?_⟩ <;>
    cases ok <;>
      simp [handleShoppingSubmit, handleEdit, setCategoryAction, hn, remoteCalls]

/-- Witness for `C10_shared_category_state`: editing `recA` (a dry-food
record) routes the category `dry` into the next shopping insert. -/
theorem C10_shared_category_state_witness :
    shoppingFormCategoryValue c4State = foodFormCategoryValue c4State
    ∧ remoteCalls (handleShoppingSubmit env0 true (handleEdit recA c4State)) =
        [RemoteCall.insert "shopping_list"
          [("category", .str "dry"), ("name", .str "S"), ("note", .str ""),
           ("isBought", .bool false), ("timestamp", .int 1746057600000)]] := by
  obtain ⟨h1, h2, -⟩ :=
    C10_shared_category_state env0 true c4State recA CategoryType.litter (by decide)
  exact ⟨h1, h2⟩
